import Mathlib

/-!
Verification of the GStreamer media-player example (`mediaplayer.cpp`).

The program builds a fixed pipeline (uridecodebin source → videoconvert →
blurfilter → autovideosink), links the converter→filter and filter→sink
edges statically, defers the source→converter link to a pad-added callback,
and runs a bus-message loop that restarts playback on end-of-stream and
terminates on an error message.

We shallowly embed the two routines of the file:
  * `pad_added_handler` (lines 159-204) as a pure function from the
    observable inputs (is the converter sink pad already linked, the new
    pad's current caps, would the link succeed) to the list of framework
    calls / log lines it performs;
  * `main` (lines 31-156) as a pure function from an environment (which
    element creations succeed, which static links succeed, and the per
    iteration bus traffic) to the list of calls it performs and its exit
    code.
Console output is modelled as the printf format string plus its string
arguments (apostrophes and trailing newlines of the C format strings are
dropped).  Every branch of the embedding is translated from the C source;
doc comments cite the source lines.
-/

namespace MediaPlayer

/-- Seek type argument of `gst_element_seek` (GstSeekType). -/
inductive GstSeekType
  | typeNone
  | typeSet
  | typeEnd
deriving DecidableEq, Repr

/-- `GST_CLOCK_TIME_NONE`: all-ones 64-bit clock value, meaning no time. -/
def gstClockTimeNone : Nat := 2 ^ 64 - 1

/-- `GST_FORMAT_TIME` enum value. -/
def gstFormatTime : Nat := 3

/-- `GST_SEEK_FLAG_FLUSH` flag bit. -/
def gstSeekFlagFlush : Nat := 1

/-- One call to `gst_element_seek`, with the arguments the program passes
(rate is the exact value 1.0, modelled as the integer 1; stop is the
`gint64` view of `GST_CLOCK_TIME_NONE`, i.e. -1). -/
structure SeekCall where
  rate : Int
  format : Nat
  flags : Nat
  startType : GstSeekType
  start : Int
  stopType : GstSeekType
  stop : Int
deriving DecidableEq, Repr

/-- The seek issued on end-of-stream (lines 123-126): rate 1.0, time
format, flush flag, start `GST_SEEK_TYPE_SET` at 0, stop
`GST_SEEK_TYPE_NONE` at `GST_CLOCK_TIME_NONE`. -/
def seekToStart : SeekCall :=
  { rate := 1, format := gstFormatTime, flags := gstSeekFlagFlush,
    startType := GstSeekType.typeSet, start := 0,
    stopType := GstSeekType.typeNone, stop := -1 }

/-- Bus message types relevant to the program. `other` stands for every
`GstMessageType` outside the three the switch names. -/
inductive MsgType
  | stateChanged
  | error
  | eos
  | other
deriving DecidableEq, Repr

/-- A bus message as the program observes it: its type, whether its source
object is the top-level pipeline, its source name, error text and debug
text (used by the error branch), and the old/new state names (used by the
state-changed branch). -/
structure BusMessage where
  mtype : MsgType
  srcIsPipeline : Bool
  srcName : String
  errText : String
  debugText : String
  oldState : String
  newState : String
deriving DecidableEq, Repr

/-- Observable calls and console output of `main`. -/
inductive Ev
  | factoryMake (factory : String) (name : String)
  | newPipeline (name : String)
  | addMany
  | linkElems (a : String) (b : String)
  | setUri
  | connectPadAdded
  | setState (st : String)
  | busPop
  | seek (c : SeekCall)
  | unrefMsg
  | unrefBus
  | unrefPipeline
  | getchar
  | printOut (fmt : String) (args : List String)
  | printErr (fmt : String) (args : List String)
deriving DecidableEq, Repr

/-- The message-type mask passed to `gst_bus_timed_pop_filtered`
(lines 100-101): `GST_MESSAGE_STATE_CHANGED | GST_MESSAGE_ERROR |
GST_MESSAGE_EOS`.  A message matches the mask exactly when its type is one
of these three. -/
def matchesFilter (m : BusMessage) : Bool :=
  match m.mtype with
  | MsgType.stateChanged => true
  | MsgType.error => true
  | MsgType.eos => true
  | MsgType.other => false

/-- The timeout passed to `gst_bus_timed_pop_filtered` (line 100):
`GST_CLOCK_TIME_NONE`, i.e. block forever. -/
def busPopTimeout : Nat := gstClockTimeNone

/-- `gst_bus_timed_pop_filtered` over a queue of pending messages: return
the first message whose type is in the mask. -/
def busTimedPopFiltered (pending : List BusMessage) : Option BusMessage :=
  pending.find? matchesFilter

/-- The `switch (GST_MESSAGE_TYPE(msg))` body of the playing loop
(lines 109-144).  Arguments: the current value of `terminate`, the popped
message, and whether the seek of the EOS branch would succeed.  Returns
the calls / console lines of the branch and the value of `terminate`
afterwards: the error branch (lines 111-118) logs and sets it true, the
EOS branch (lines 119-129) logs, sets it false and seeks (logging if the
seek fails), the state-changed branch (lines 130-139) logs only when the
message source is the pipeline, and the default branch (lines 140-143)
logs an unexpected message. -/
def handleMessage (terminate : Bool) (msg : BusMessage) (seekOk : Bool) :
    List Ev × Bool :=
  match msg.mtype with
  | MsgType.error =>
      ([Ev.printErr "Error received from element %s: %s" [msg.srcName, msg.errText],
        Ev.printErr "Debugging information: %s" [msg.debugText]], true)
  | MsgType.eos =>
      ([Ev.printOut "End-Of-Stream reached." [], Ev.seek seekToStart] ++
        (if seekOk then [] else [Ev.printOut "Seek failed!" []]), false)
  | MsgType.stateChanged =>
      ((if msg.srcIsPipeline then
          [Ev.printOut "Pipeline state changed from %s to %s:"
            [msg.oldState, msg.newState]]
        else []), terminate)
  | MsgType.other =>
      ([Ev.printErr "Unexpected message received." []], terminate)

/-- Input of one iteration of the playing loop: does
`gst_element_set_state(.., GST_STATE_PLAYING)` succeed, which message does
the (blocking, hence never NULL) filtered pop deliver, and would the seek
of an EOS branch succeed. -/
structure IterInput where
  playOk : Bool
  msg : BusMessage
  seekOk : Bool
deriving DecidableEq, Repr

/-- How a (finite prefix of the) playing loop ends: fell out of the loop
because `terminate` became true, returned -1 because the playing state
transition failed, or is still looping when the modelled trace ends. -/
inductive LoopOutcome
  | exitError
  | abortPlay
  | stillRunning
deriving DecidableEq, Repr

/-- The `do { ... } while (!terminate)` loop of `main` (lines 85-147) over
a finite trace of iteration inputs.  Each iteration: set the pipeline to
playing (print, unref the pipeline and return -1 on failure, lines 89-95),
get the bus and pop a message (lines 98-101), dispatch it and unref it
(lines 104-146), and loop again unless `terminate` became true.
`terminate` is false on entry of every iteration since the loop guard is
`!terminate` and it starts false (line 37). -/
def playLoop : List IterInput → List Ev × LoopOutcome
  | [] => ([], LoopOutcome.stillRunning)
  | it :: rest =>
    if it.playOk then
      let hm := handleMessage false it.msg it.seekOk
      let evs := [Ev.setState "PLAYING", Ev.busPop] ++ hm.1 ++ [Ev.unrefMsg]
      if hm.2 then (evs, LoopOutcome.exitError)
      else
        let r := playLoop rest
        (evs ++ r.1, r.2)
    else
      ([Ev.setState "PLAYING",
        Ev.printErr "Unable to set pipeline to the playing state." [],
        Ev.unrefPipeline, Ev.getchar], LoopOutcome.abortPlay)

/-- Which element creations and static links succeed in a run of `main`. -/
structure SetupEnv where
  sourceOk : Bool
  convertOk : Bool
  filterOk : Bool
  sinkOk : Bool
  pipelineOk : Bool
  linkConvertFilterOk : Bool
  linkFilterSinkOk : Bool
deriving DecidableEq, Repr

/-- A whole run environment of `main`. -/
structure Env where
  setup : SetupEnv
  iters : List IterInput
deriving DecidableEq, Repr

/-- The element-creation calls of lines 44-50, in source order. -/
def makeTrace : List Ev :=
  [Ev.factoryMake "uridecodebin" "source",
   Ev.factoryMake "videoconvert" "videoconvert",
   Ev.factoryMake "blurfilter" "blurfilter",
   Ev.factoryMake "autovideosink" "videosink",
   Ev.newPipeline "video-pipeline"]

/-- The successful-setup trace of lines 44-82: create the elements and the
pipeline, add them to the bin, link videoconvert→blurfilter and
blurfilter→videosink, set the uri, connect the pad-added callback. -/
def setupTrace : List Ev :=
  makeTrace ++
  [Ev.addMany,
   Ev.linkElems "videoconvert" "blurfilter",
   Ev.linkElems "blurfilter" "videosink",
   Ev.setUri,
   Ev.connectPadAdded]

/-- The events after the loop falls through on `terminate` (lines 149-154). -/
def shutdownTrace : List Ev :=
  [Ev.unrefBus, Ev.setState "NULL", Ev.unrefPipeline, Ev.getchar]

/-- The creation check of line 52:
`!pipeline || !source || !videosink || !videoconvert || !filter`. -/
def creationFailed (s : SetupEnv) : Bool :=
  !s.pipelineOk || !s.sourceOk || !s.sinkOk || !s.convertOk || !s.filterOk

/-- All three early checks of `main` pass: the elements were created and
both static links succeeded. -/
def setupOk (s : SetupEnv) : Bool :=
  !creationFailed s && s.linkConvertFilterOk && s.linkFilterSinkOk

/-- `main` (lines 31-156) over an environment: the list of calls performed
and the exit status (`none` when the finite iteration trace ran out with
the loop still going).  Line 52-57: creation failure prints and returns -1
without unreferencing the pipeline.  Lines 63-76: a static link failure
prints, unrefs the pipeline and returns -1.  Falling out of the loop
(only `terminate`, set by the error branch) reaches lines 149-155: unref
the bus, set the pipeline state to NULL, unref the pipeline, return 0. -/
def mainRun (env : Env) : List Ev × Option Int :=
  let s := env.setup
  if creationFailed s then
    (makeTrace ++ [Ev.printErr "All elements could not be created." [],
      Ev.getchar], some (-1))
  else if !s.linkConvertFilterOk then
    (makeTrace ++ [Ev.addMany, Ev.linkElems "videoconvert" "blurfilter",
      Ev.printErr "Elements could not be linked." [],
      Ev.unrefPipeline, Ev.getchar], some (-1))
  else if !s.linkFilterSinkOk then
    (makeTrace ++ [Ev.addMany, Ev.linkElems "videoconvert" "blurfilter",
      Ev.linkElems "blurfilter" "videosink",
      Ev.printErr "Elements could not be linked." [],
      Ev.unrefPipeline, Ev.getchar], some (-1))
  else
    let lp := playLoop env.iters
    match lp.2 with
    | LoopOutcome.exitError => (setupTrace ++ lp.1 ++ shutdownTrace, some 0)
    | LoopOutcome.abortPlay => (setupTrace ++ lp.1, some (-1))
    | LoopOutcome.stillRunning => (setupTrace ++ lp.1, none)

/-- Observable calls and console output of `pad_added_handler`.
`getStructure capsNull` records the call
`gst_caps_get_structure(new_pad_caps, 0)` together with whether its caps
argument was NULL. -/
inductive PEv
  | getStaticSinkPad
  | getCurrentCaps
  | getStructure (capsNull : Bool)
  | padLink
  | capsUnref
  | sinkPadUnref
  | printOut (fmt : String) (args : List String)
deriving DecidableEq, Repr

/-- Input of one `pad_added_handler` invocation: the new pad's and the
source element's names (only printed), whether the converter's sink pad is
already linked, the structure name of the new pad's current caps (`none`
models `gst_pad_get_current_caps` returning NULL), and whether
`gst_pad_link` would succeed. -/
structure PadInput where
  sinkLinked : Bool
  padName : String
  srcName : String
  capsType : Option String
  linkOk : Bool
deriving DecidableEq, Repr

/-- `g_str_has_prefix` on a possibly-NULL string: GLib's
`g_return_val_if_fail (str != NULL, FALSE)` guard makes it return FALSE on
NULL, otherwise it tests whether the string starts with the given text. -/
def strHasPfx : Option String → String → Bool
  | none, _ => false
  | some s, p => p.data.isPrefixOf s.data

/-- The string printf shows for a possibly-NULL `gchar*` argument. -/
def showStr (s : Option String) : String := s.getD "(null)"

/-- `pad_added_handler` (lines 159-204): get the converter's static sink
pad (line 161) and log the new pad (line 167); if the sink pad is already
linked, log and jump to exit (lines 170-174); otherwise fetch the new
pad's current caps and pass them, with no NULL check, to
`gst_caps_get_structure` (lines 177-179); if the structure name does not
begin with "video/x-raw", log and jump to exit (lines 180-184); otherwise
attempt `gst_pad_link` and log the result (lines 186-195).  At exit the
caps are unreferenced only when non-NULL (lines 199-200) and the sink pad
is unreferenced (line 203).  Returns the calls performed and whether the
link was made. -/
def pad_added_handler (inp : PadInput) : List PEv × Bool :=
  let intro := [PEv.getStaticSinkPad,
    PEv.printOut "Received new pad %s from %s:" [inp.padName, inp.srcName]]
  if inp.sinkLinked then
    (intro ++ [PEv.printOut "We are already linked. Ignoring." [],
      PEv.sinkPadUnref], false)
  else
    let query := [PEv.getCurrentCaps, PEv.getStructure inp.capsType.isNone]
    let outro := (if inp.capsType.isNone then [] else [PEv.capsUnref]) ++
      [PEv.sinkPadUnref]
    if !strHasPfx inp.capsType "video/x-raw" then
      (intro ++ query ++
        [PEv.printOut "It has type %s, which is not raw video. Ignoring."
          [showStr inp.capsType]] ++ outro, false)
    else if inp.linkOk then
      (intro ++ query ++ [PEv.padLink,
        PEv.printOut "Link succeeded (type %s)."
          [showStr inp.capsType]] ++ outro, true)
    else
      (intro ++ query ++ [PEv.padLink,
        PEv.printOut "Type is %s, but link failed."
          [showStr inp.capsType]] ++ outro, false)

/-- A pad-added event as delivered over a run: the pad and source names,
the new pad's caps type, and whether a link attempt on it would succeed. -/
structure PadEventInfo where
  padName : String
  srcName : String
  capsType : Option String
  linkOk : Bool
deriving DecidableEq, Repr

/-- Is this handler call a `gst_pad_link` call? -/
def isPadLink : PEv → Bool
  | PEv.padLink => true
  | _ => false

/-- Fold `pad_added_handler` over a sequence of pad-added events.  The
converter sink pad is linked afterwards exactly when it was before or this
handler linked it (a successful `gst_pad_link` is what makes
`gst_pad_is_linked` true for later events).  Returns the final linked
state, the total number of `gst_pad_link` calls, and the number of
successful links. -/
def runPads : Bool → List PadEventInfo → Bool × Nat × Nat
  | linked, [] => (linked, 0, 0)
  | linked, p :: ps =>
    let h := pad_added_handler ⟨linked, p.padName, p.srcName, p.capsType, p.linkOk⟩
    let attempts := (h.1.filter isPadLink).length
    let r := runPads (linked || h.2) ps
    (r.1, attempts + r.2.1, (if h.2 then 1 else 0) + r.2.2)

/-- Is this `main` event a `gst_element_seek` call? -/
def isSeek : Ev → Bool
  | Ev.seek _ => true
  | _ => false

/-- The seek calls among a list of events. -/
def seekEvs (evs : List Ev) : List Ev := evs.filter isSeek

/-- Number of end-of-stream messages the playing loop processes over a
trace of iteration inputs, mirroring the loop's control flow: a failed
playing transition aborts before the pop, an error message is the last
message processed, and every other message lets the loop continue. -/
def eosProcessed : List IterInput → Nat
  | [] => 0
  | it :: rest =>
    if it.playOk then
      if it.msg.mtype = MsgType.error then 0
      else (if it.msg.mtype = MsgType.eos then 1 else 0) + eosProcessed rest
    else 0

/-- Concrete bus messages and environments used to instantiate theorems. -/
def msgErrW : BusMessage :=
  ⟨MsgType.error, false, "source", "boom", "none", "", ""⟩

def msgEosW : BusMessage :=
  ⟨MsgType.eos, true, "video-pipeline", "", "", "", ""⟩

def msgScW : BusMessage :=
  ⟨MsgType.stateChanged, true, "video-pipeline", "", "", "READY", "PLAYING"⟩

def msgOtherW : BusMessage :=
  ⟨MsgType.other, false, "source", "", "", "", ""⟩

def allOkSetup : SetupEnv := ⟨true, true, true, true, true, true, true⟩

/-- Environment: a clean run whose first bus message is an error. -/
def envBusErr : Env := ⟨allOkSetup, [⟨true, msgErrW, true⟩]⟩

/-- Environment: the blurfilter element fails to be created. -/
def envNoElem : Env := ⟨⟨true, true, false, true, true, true, true⟩, []⟩

/-! ## Helper lemmas -/

/-- The value of `terminate` after the switch: true after an error message,
false after end-of-stream, unchanged otherwise. -/
theorem handleMessage_term (t : Bool) (msg : BusMessage) (ok : Bool) :
    (handleMessage t msg ok).2 =
      if msg.mtype = MsgType.error then true
      else if msg.mtype = MsgType.eos then false else t := by
  cases h : msg.mtype <;> simp [handleMessage, h]

/-- The switch body performs no element links. -/
theorem handleMessage_no_link (t : Bool) (msg : BusMessage) (ok : Bool)
    (a b : String) : Ev.linkElems a b ∉ (handleMessage t msg ok).1 := by
  cases h : msg.mtype <;>
    cases ok <;>
      cases hs : msg.srcIsPipeline <;>
        simp [handleMessage, h, hs]

/-- The seek calls of the switch body: exactly the seek-to-start on an
end-of-stream message, none otherwise. -/
theorem handleMessage_seekEvs (t : Bool) (msg : BusMessage) (ok : Bool) :
    seekEvs (handleMessage t msg ok).1 =
      if msg.mtype = MsgType.eos then [Ev.seek seekToStart] else [] := by
  cases h : msg.mtype <;>
    cases ok <;>
      cases hs : msg.srcIsPipeline <;>
        simp [handleMessage, h, hs, seekEvs, isSeek]

/-- The playing loop performs no element links. -/
theorem playLoop_no_link (l : List IterInput) (a b : String) :
    Ev.linkElems a b ∉ (playLoop l).1 := by
  induction l with
  | nil => simp [playLoop]
  | cons it rest ih =>
    by_cases hp : it.playOk
    · cases ht : (handleMessage false it.msg it.seekOk).2 <;>
        simp [playLoop, hp, ht, handleMessage_no_link, ih]
    · simp [playLoop, hp]

/-- If the playing loop aborts because the playing transition failed, it
unreferenced the pipeline. -/
theorem playLoop_abort_unrefs (l : List IterInput)
    (h : (playLoop l).2 = LoopOutcome.abortPlay) :
    Ev.unrefPipeline ∈ (playLoop l).1 := by
  induction l with
  | nil => simp [playLoop] at h
  | cons it rest ih =>
    by_cases hp : it.playOk
    · cases ht : (handleMessage false it.msg it.seekOk).2
      · simp only [playLoop, hp, if_true, ht, if_false] at h ⊢
        simp only [Bool.false_eq_true, if_false] at h ⊢
        exact List.mem_append_right _ (ih h)
      · simp [playLoop, hp, ht] at h
    · simp [playLoop, hp]

/-- If the playing loop fell out via `terminate`, some processed message
was an error message. -/
theorem playLoop_exit_has_error (l : List IterInput)
    (h : (playLoop l).2 = LoopOutcome.exitError) :
    ∃ it ∈ l, it.msg.mtype = MsgType.error := by
  induction l with
  | nil => simp [playLoop] at h
  | cons it rest ih =>
    by_cases hp : it.playOk
    · by_cases hmt : it.msg.mtype = MsgType.error
      · exact ⟨it, List.mem_cons_self it rest, hmt⟩
      · have ht : (handleMessage false it.msg it.seekOk).2 = false := by
          simp [handleMessage_term, hmt]
        simp only [playLoop, hp, if_true, ht, Bool.false_eq_true, if_false] at h
        obtain ⟨x, hx, hxe⟩ := ih h
        exact ⟨x, List.mem_cons_of_mem it hx, hxe⟩
    · simp [playLoop, hp] at h

/-- The number of seek calls the playing loop performs equals the number
of end-of-stream messages it processes. -/
theorem playLoop_seek_count (l : List IterInput) :
    (seekEvs (playLoop l).1).length = eosProcessed l := by
  induction l with
  | nil => simp [playLoop, eosProcessed, seekEvs]
  | cons it rest ih =>
    by_cases hp : it.playOk
    · have hse := handleMessage_seekEvs false it.msg it.seekOk
      by_cases hmt : it.msg.mtype = MsgType.error
      · have ht : (handleMessage false it.msg it.seekOk).2 = true := by
          simp [handleMessage_term, hmt]
        rw [hmt, if_neg (by decide : ¬(MsgType.error = MsgType.eos))] at hse
        simp only [seekEvs] at hse ⊢
        simp [playLoop, hp, ht, eosProcessed, hmt, List.filter_append, hse,
          isSeek]
      · have ht : (handleMessage false it.msg it.seekOk).2 = false := by
          simp [handleMessage_term, hmt]
        simp only [playLoop, hp, if_true, ht, Bool.false_eq_true, if_false]
        simp only [seekEvs] at hse ⊢
        by_cases heos : it.msg.mtype = MsgType.eos
        · rw [heos] at hse
          simp [eosProcessed, hp, hmt, heos, List.filter_append, hse,
            seekEvs, isSeek] at ih ⊢
          omega
        · rw [if_neg heos] at hse
          simp [eosProcessed, hp, hmt, heos, List.filter_append, hse,
            seekEvs, isSeek] at ih ⊢
          exact ih
    · simp [playLoop, hp, eosProcessed, seekEvs, isSeek]

/-- Once the converter sink pad is linked, a run of pad-added events makes
no further `gst_pad_link` call and no further successful link. -/
theorem runPads_already_linked (ps : List PadEventInfo) :
    runPads true ps = (true, 0, 0) := by
  induction ps with
  | nil => rfl
  | cons p ps ih => simp [runPads, pad_added_handler, ih, isPadLink]

/-! ## Claims -/

/-- C1: a pad-added event whose negotiated media type does not begin with
"video/x-raw" (including an absent caps/type, for which `g_str_has_prefix`
is false) never leads to a `gst_pad_link` call; conversely the handler
attempts a link only when the type is present and begins with
"video/x-raw". -/
theorem c1_pad_type_filtering (inp : PadInput) :
    (strHasPfx inp.capsType "video/x-raw" = false →
      PEv.padLink ∉ (pad_added_handler inp).1) ∧
    (PEv.padLink ∈ (pad_added_handler inp).1 →
      ∃ ty, inp.capsType = some ty ∧ strHasPfx (some ty) "video/x-raw" = true) := by
  obtain ⟨l, pn, sn, c, k⟩ := inp
  cases l
  · by_cases hpfx : strHasPfx c "video/x-raw" = true
    · constructor
      · intro hf
        rw [hpfx] at hf
        cases hf
      · intro _
        cases c with
        | none => simp [strHasPfx] at hpfx
        | some s => exact ⟨s, rfl, hpfx⟩
    · rw [Bool.not_eq_true] at hpfx
      constructor
      · intro _
        cases k <;> simp [pad_added_handler, hpfx]
      · intro hmem
        exfalso
        cases k <;> simp [pad_added_handler, hpfx] at hmem
  · constructor
    · intro _
      simp [pad_added_handler]
    · intro hmem
      simp [pad_added_handler] at hmem

/-- Witness for C1 at a concrete non-raw-video pad. -/
theorem c1_pad_type_filtering_witness :
    PEv.padLink ∉
      (pad_added_handler ⟨false, "src_1", "source", some "audio/x-raw", true⟩).1 :=
  (c1_pad_type_filtering ⟨false, "src_1", "source", some "audio/x-raw", true⟩).1
    (by decide)

/-- C2: when the converter's sink pad is already linked the handler only
logs (it fetches no caps, attempts no link, and reports no link), and over
any sequence of pad-added events the source→converter link is established
at most once (and never again once linked). -/
theorem c2_idempotent_linking :
    (∀ inp : PadInput, inp.sinkLinked = true →
      (pad_added_handler inp).1 =
        [PEv.getStaticSinkPad,
         PEv.printOut "Received new pad %s from %s:" [inp.padName, inp.srcName],
         PEv.printOut "We are already linked. Ignoring." [],
         PEv.sinkPadUnref] ∧
      (pad_added_handler inp).2 = false) ∧
    (∀ ps : List PadEventInfo, runPads true ps = (true, 0, 0)) ∧
    (∀ ps : List PadEventInfo, (runPads false ps).2.2 ≤ 1) := by
  refine ⟨?_, runPads_already_linked, ?_⟩
  · intro inp h
    obtain ⟨l, pn, sn, c, k⟩ := inp
    cases h
    constructor <;> simp [pad_added_handler]
  · intro ps
    induction ps with
    | nil => simp [runPads]
    | cons p ps ih =>
      simp only [runPads]
      cases hb : (pad_added_handler
          ⟨false, p.padName, p.srcName, p.capsType, p.linkOk⟩).2
      · simpa [hb] using ih
      · simp [hb, runPads_already_linked]

/-- Witness for C2 at a concrete already-linked pad-added event. -/
theorem c2_idempotent_linking_witness :
    (pad_added_handler ⟨true, "src_0", "source", some "video/x-raw", true⟩).1 =
      [PEv.getStaticSinkPad,
       PEv.printOut "Received new pad %s from %s:" ["src_0", "source"],
       PEv.printOut "We are already linked. Ignoring." [],
       PEv.sinkPadUnref] ∧
    (pad_added_handler ⟨true, "src_0", "source", some "video/x-raw", true⟩).2 =
      false :=
  c2_idempotent_linking.1 ⟨true, "src_0", "source", some "video/x-raw", true⟩ rfl

/-- C9 counterexample: with the sink pad not yet linked and
`gst_pad_get_current_caps` returning NULL, the handler still passes the
NULL caps to `gst_caps_get_structure` (line 178 has no NULL check), so the
caps access is not guarded. -/
theorem c9_counterexample :
    PEv.getStructure true ∈
      (pad_added_handler ⟨false, "src_0", "source", none, true⟩).1 := by
  decide

/-- C9 (amended): the caps unref at exit is guarded — the handler
unreferences the caps only when they are non-NULL — but the caps are
passed to `gst_caps_get_structure` unconditionally whenever the sink pad
is not already linked, even when they are absent. -/
theorem c9_caps_guard (inp : PadInput) :
    (PEv.capsUnref ∈ (pad_added_handler inp).1 → inp.capsType ≠ none) ∧
    (inp.sinkLinked = false →
      PEv.getStructure inp.capsType.isNone ∈ (pad_added_handler inp).1) := by
  obtain ⟨l, pn, sn, c, k⟩ := inp
  cases l
  · by_cases hpfx : strHasPfx c "video/x-raw" = true
    · have hc : c ≠ none := by
        intro hn
        rw [hn] at hpfx
        simp [strHasPfx] at hpfx
      constructor
      · intro _
        exact hc
      · intro _
        cases k <;> simp [pad_added_handler, hpfx]
    · rw [Bool.not_eq_true] at hpfx
      constructor
      · intro hmem
        cases hcc : c with
        | none =>
          rw [hcc] at hmem
          simp [pad_added_handler, strHasPfx] at hmem
        | some s => simp
      · intro _
        cases k <;> simp [pad_added_handler, hpfx]
  · constructor
    · intro hmem
      simp [pad_added_handler] at hmem
    · intro h
      cases h

/-- Witness for C9's amended theorem at a concrete NULL-caps event. -/
theorem c9_caps_guard_witness :
    PEv.getStructure true ∈
      (pad_added_handler ⟨false, "src_2", "source", none, false⟩).1 :=
  (c9_caps_guard ⟨false, "src_2", "source", none, false⟩).2 rfl

/-- C4: an end-of-stream message makes the switch issue exactly one seek,
the flushing seek-to-zero `seekToStart`; any other message issues none;
over a whole loop run the number of seek calls equals the number of
end-of-stream messages processed. -/
theorem c4_eos_seek_once (t : Bool) (msg : BusMessage) (ok : Bool) :
    (msg.mtype = MsgType.eos →
      seekEvs (handleMessage t msg ok).1 = [Ev.seek seekToStart]) ∧
    (msg.mtype ≠ MsgType.eos → seekEvs (handleMessage t msg ok).1 = []) ∧
    (∀ iters : List IterInput,
      (seekEvs (playLoop iters).1).length = eosProcessed iters) ∧
    seekToStart.flags = gstSeekFlagFlush ∧
    seekToStart.startType = GstSeekType.typeSet ∧ seekToStart.start = 0 := by
  refine ⟨?_, ?_, playLoop_seek_count, rfl, rfl, rfl⟩
  · intro h
    rw [handleMessage_seekEvs, if_pos h]
  · intro h
    rw [handleMessage_seekEvs, if_neg h]

/-- Witness for C4 at a concrete end-of-stream message. -/
theorem c4_eos_seek_once_witness :
    seekEvs (handleMessage false msgEosW false).1 = [Ev.seek seekToStart] :=
  (c4_eos_seek_once false msgEosW false).1 rfl

/-- C5: when the seek of the end-of-stream branch fails, the branch leaves
`terminate` false, logs the failure, and still issued only the one seek;
an iteration that processes such a message continues the loop (the loop's
remaining behaviour is that of the rest of the trace). -/
theorem c5_seek_failure_logged_only (t : Bool) (msg : BusMessage)
    (it : IterInput) (rest : List IterInput) :
    (msg.mtype = MsgType.eos →
      (handleMessage t msg false).2 = false ∧
      Ev.printOut "Seek failed!" [] ∈ (handleMessage t msg false).1 ∧
      seekEvs (handleMessage t msg false).1 = [Ev.seek seekToStart]) ∧
    (it.playOk = true → it.msg.mtype = MsgType.eos →
      (playLoop (it :: rest)).2 = (playLoop rest).2 ∧
      (playLoop (it :: rest)).1 =
        [Ev.setState "PLAYING", Ev.busPop] ++
          (handleMessage false it.msg it.seekOk).1 ++ [Ev.unrefMsg] ++
          (playLoop rest).1) := by
  constructor
  · intro h
    refine ⟨by simp [handleMessage_term, h], ?_, ?_⟩
    · simp [handleMessage, h]
    · rw [handleMessage_seekEvs, if_pos h]
  · intro hp he
    have ht : (handleMessage false it.msg it.seekOk).2 = false := by
      simp [handleMessage_term, he]
    constructor <;> simp [playLoop, hp, ht]

/-- Witness for C5 at a concrete end-of-stream iteration whose seek fails. -/
theorem c5_seek_failure_logged_only_witness :
    (playLoop [⟨true, msgEosW, false⟩]).2 = (playLoop ([] : List IterInput)).2 ∧
    (playLoop [⟨true, msgEosW, false⟩]).1 =
      [Ev.setState "PLAYING", Ev.busPop] ++
        (handleMessage false msgEosW false).1 ++ [Ev.unrefMsg] ++
        (playLoop ([] : List IterInput)).1 :=
  (c5_seek_failure_logged_only false msgEosW ⟨true, msgEosW, false⟩ []).2 rfl rfl

/-- C6: the bus wait uses the no-timeout value `GST_CLOCK_TIME_NONE`, and
every message the filtered pop returns has one of the three masked types
(state-changed, error, end-of-stream), so dispatching such a message never
reaches the default branch's unexpected-message print. -/
theorem c6_bus_filter (pending : List BusMessage) (m : BusMessage)
    (t : Bool) (ok : Bool) (h : busTimedPopFiltered pending = some m) :
    busPopTimeout = gstClockTimeNone ∧
    (m.mtype = MsgType.stateChanged ∨ m.mtype = MsgType.error ∨
      m.mtype = MsgType.eos) ∧
    Ev.printErr "Unexpected message received." [] ∉ (handleMessage t m ok).1 := by
  have hp : matchesFilter m = true := List.find?_some h
  have hm3 : m.mtype = MsgType.stateChanged ∨ m.mtype = MsgType.error ∨
      m.mtype = MsgType.eos := by
    cases hmt : m.mtype <;> simp [matchesFilter, hmt] at hp ⊢
  refine ⟨rfl, hm3, ?_⟩
  rcases hm3 with h1 | h1 | h1 <;>
    cases ok <;>
      cases hs : m.srcIsPipeline <;>
        simp [handleMessage, h1, hs]

/-- Witness for C6 at a concrete pending queue whose first matching
message is an end-of-stream message. -/
theorem c6_bus_filter_witness :
    busPopTimeout = gstClockTimeNone ∧
    (msgEosW.mtype = MsgType.stateChanged ∨ msgEosW.mtype = MsgType.error ∨
      msgEosW.mtype = MsgType.eos) ∧
    Ev.printErr "Unexpected message received." [] ∉
      (handleMessage false msgEosW true).1 :=
  c6_bus_filter [msgOtherW, msgEosW] msgEosW false true rfl

/-- C7: a state-changed message is logged (with its parsed old and new
states) exactly when its source is the pipeline, and has no other effect:
any other source produces no output, and `terminate` is unchanged either
way. -/
theorem c7_state_changed_logging (t : Bool) (msg : BusMessage) (ok : Bool)
    (h : msg.mtype = MsgType.stateChanged) :
    (handleMessage t msg ok).1 =
      (if msg.srcIsPipeline then
        [Ev.printOut "Pipeline state changed from %s to %s:"
          [msg.oldState, msg.newState]]
      else []) ∧
    (handleMessage t msg ok).2 = t := by
  constructor <;> simp [handleMessage, h]

/-- Witness for C7 at a concrete pipeline state-changed message. -/
theorem c7_state_changed_logging_witness :
    (handleMessage false msgScW true).1 =
      (if msgScW.srcIsPipeline then
        [Ev.printOut "Pipeline state changed from %s to %s:"
          [msgScW.oldState, msgScW.newState]]
      else []) ∧
    (handleMessage false msgScW true).2 = false :=
  c7_state_changed_logging false msgScW true rfl

/-- C10: `terminate` becomes true only in the error branch (the
end-of-stream branch resets it to false, the other branches leave it
unchanged); an iteration that processes a non-error message continues the
loop, whose next iteration again sets the pipeline to playing; and the
loop falls out via `terminate` only when it processed an error message. -/
theorem c10_terminate_only_on_error :
    (∀ (t : Bool) (msg : BusMessage) (ok : Bool),
      (handleMessage t msg ok).2 =
        if msg.mtype = MsgType.error then true
        else if msg.mtype = MsgType.eos then false else t) ∧
    (∀ (it : IterInput) (rest : List IterInput), it.playOk = true →
      it.msg.mtype ≠ MsgType.error →
      (playLoop (it :: rest)).2 = (playLoop rest).2 ∧
      (playLoop (it :: rest)).1 =
        [Ev.setState "PLAYING", Ev.busPop] ++
          (handleMessage false it.msg it.seekOk).1 ++ [Ev.unrefMsg] ++
          (playLoop rest).1) ∧
    (∀ iters : List IterInput, (playLoop iters).2 = LoopOutcome.exitError →
      ∃ it ∈ iters, it.msg.mtype = MsgType.error) := by
  refine ⟨handleMessage_term, ?_, playLoop_exit_has_error⟩
  intro it rest hp he
  have ht : (handleMessage false it.msg it.seekOk).2 = false := by
    simp [handleMessage_term, he]
  constructor <;> simp [playLoop, hp, ht]

/-- Witness for C10 at a concrete non-error (state-changed) iteration. -/
theorem c10_terminate_only_on_error_witness :
    (playLoop [⟨true, msgScW, true⟩]).2 = (playLoop ([] : List IterInput)).2 ∧
    (playLoop [⟨true, msgScW, true⟩]).1 =
      [Ev.setState "PLAYING", Ev.busPop] ++
        (handleMessage false msgScW true).1 ++ [Ev.unrefMsg] ++
        (playLoop ([] : List IterInput)).1 :=
  c10_terminate_only_on_error.2.1 ⟨true, msgScW, true⟩ [] rfl (by decide)

/-- C3 counterexample: after a bus error message the process exits with
status 0, not a non-zero status (`envBusErr`); and on an element-creation
failure it exits -1 without unreferencing the pipeline (`envNoElem`). -/
theorem c3_counterexample :
    (mainRun envBusErr).2 = some 0 ∧
    (mainRun envNoElem).2 = some (-1) ∧
    Ev.unrefPipeline ∉ (mainRun envNoElem).1 := by
  decide

/-- C3 (amended): static-link failures and a failed transition to playing
terminate the process with exit status -1 after unreferencing the
pipeline; an element-creation failure terminates with -1 but without
unreferencing the pipeline; a bus error message ends the loop and the
process exits with status 0 after unreferencing the pipeline. -/
theorem c3_fatal_paths (env : Env) :
    (creationFailed env.setup = true →
      (mainRun env).2 = some (-1) ∧ Ev.unrefPipeline ∉ (mainRun env).1) ∧
    (creationFailed env.setup = false →
      env.setup.linkConvertFilterOk = false →
      (mainRun env).2 = some (-1) ∧ Ev.unrefPipeline ∈ (mainRun env).1) ∧
    (creationFailed env.setup = false →
      env.setup.linkConvertFilterOk = true →
      env.setup.linkFilterSinkOk = false →
      (mainRun env).2 = some (-1) ∧ Ev.unrefPipeline ∈ (mainRun env).1) ∧
    (creationFailed env.setup = false →
      env.setup.linkConvertFilterOk = true →
      env.setup.linkFilterSinkOk = true →
      (playLoop env.iters).2 = LoopOutcome.abortPlay →
      (mainRun env).2 = some (-1) ∧ Ev.unrefPipeline ∈ (mainRun env).1) ∧
    (creationFailed env.setup = false →
      env.setup.linkConvertFilterOk = true →
      env.setup.linkFilterSinkOk = true →
      (playLoop env.iters).2 = LoopOutcome.exitError →
      (mainRun env).2 = some 0 ∧ Ev.unrefPipeline ∈ (mainRun env).1) := by
  refine ⟨?_, ?_, ?_, ?_, ?_⟩
  · intro h
    constructor <;> simp [mainRun, h, makeTrace]
  · intro h1 h2
    constructor <;> simp [mainRun, h1, h2, makeTrace]
  · intro h1 h2 h3
    constructor <;> simp [mainRun, h1, h2, h3, makeTrace]
  · intro h1 h2 h3 hl
    have hm := playLoop_abort_unrefs env.iters hl
    constructor <;> simp [mainRun, h1, h2, h3, hl, hm]
  · intro h1 h2 h3 hl
    constructor <;> simp [mainRun, h1, h2, h3, hl, shutdownTrace]

/-- Witness for C3's amended theorem at the concrete bus-error run. -/
theorem c3_fatal_paths_witness :
    (mainRun envBusErr).2 = some 0 ∧ Ev.unrefPipeline ∈ (mainRun envBusErr).1 :=
  (c3_fatal_paths envBusErr).2.2.2.2 (by decide) (by decide) (by decide)
    (by decide)

/-- C8: when the three early checks pass, `main`'s trace is: the five
creations in source order, the bin fill, the two static links
(converter→filter then filter→sink), the uri, the pad-added callback
registration, and only then the playing loop; and no run of `main` ever
links any pair of elements other than converter→filter and filter→sink —
in particular the source→converter edge is never linked statically. -/
theorem c8_main_order (env : Env) :
    (creationFailed env.setup = false →
      env.setup.linkConvertFilterOk = true →
      env.setup.linkFilterSinkOk = true →
      ∃ tail, (mainRun env).1 =
        makeTrace ++
          [Ev.addMany,
           Ev.linkElems "videoconvert" "blurfilter",
           Ev.linkElems "blurfilter" "videosink",
           Ev.setUri, Ev.connectPadAdded] ++
          (playLoop env.iters).1 ++ tail) ∧
    (∀ a b, Ev.linkElems a b ∈ (mainRun env).1 →
      (a = "videoconvert" ∧ b = "blurfilter") ∨
      (a = "blurfilter" ∧ b = "videosink")) := by
  constructor
  · intro h1 h2 h3
    cases hl : (playLoop env.iters).2
    case exitError =>
      exact ⟨shutdownTrace, by simp [mainRun, h1, h2, h3, hl, setupTrace]⟩
    case abortPlay =>
      exact ⟨[], by simp [mainRun, h1, h2, h3, hl, setupTrace]⟩
    case stillRunning =>
      exact ⟨[], by simp [mainRun, h1, h2, h3, hl, setupTrace]⟩
  · intro a b hmem
    by_cases h1 : creationFailed env.setup = true
    · simp [mainRun, h1, makeTrace] at hmem
    · rw [Bool.not_eq_true] at h1
      by_cases h2 : env.setup.linkConvertFilterOk = true
      case neg =>
        rw [Bool.not_eq_true] at h2
        simp [mainRun, h1, h2, makeTrace] at hmem
        tauto
      case pos =>
        by_cases h3 : env.setup.linkFilterSinkOk = true
        case neg =>
          rw [Bool.not_eq_true] at h3
          simp [mainRun, h1, h2, h3, makeTrace] at hmem
          tauto
        case pos =>
          cases hl : (playLoop env.iters).2 <;>
            · simp [mainRun, h1, h2, h3, hl, setupTrace, makeTrace,
                shutdownTrace, playLoop_no_link] at hmem
              tauto

/-- Witness for C8 at the concrete bus-error run. -/
theorem c8_main_order_witness :
    ∃ tail, (mainRun envBusErr).1 =
      makeTrace ++
        [Ev.addMany,
         Ev.linkElems "videoconvert" "blurfilter",
         Ev.linkElems "blurfilter" "videosink",
         Ev.setUri, Ev.connectPadAdded] ++
        (playLoop envBusErr.iters).1 ++ tail :=
  (c8_main_order envBusErr).1 (by decide) (by decide) (by decide)

end MediaPlayer
